import Mathlib

/-
Verification of the telemetry-derivation core of the visdat-course
repository (src/myproject/pandas_exercises/pandas_exercises.py).

The script derives four columns from a telemetry table
(lines 83-90 and 139-146 of the source):

  telemetry['speed_ms']      = telemetry['speed_kmh'] / 3.6
  telemetry['total_g']       = (telemetry.get('lateral_g', 0)**2
                                + telemetry.get('longitudinal_g', 0)**2)**0.5
  telemetry['time_minutes']  = telemetry['time_s'] / 60
  telemetry['time_relative'] = telemetry['time_s'] - telemetry['time_s'].iloc[0]

and renames three columns (lines 96-100 and 152-156):

  telemetry.rename(columns={'speed_kmh': 'velocity_kmh',
                            'time_s': 'timestamp_seconds',
                            'distance_m': 'position_meters'})

We embed a table as a list of records.  Numeric cell values are modelled
as rationals; the square root in total_g is the real square root.
-/

/-- A raw table cell for a required column: either a numeric value or a
non-numeric entry (e.g. a string that failed coercion). -/
inductive Cell where
  | num (q : ℚ)
  | nonNumeric (s : String)
deriving DecidableEq, Repr

/-- Numeric value of an optional cell; a missing or non-numeric cell
reads as 0 (junk value, only used behind a validity check). -/
def numOf : Option Cell → ℚ
  | some (Cell.num q) => q
  | _ => 0

/-- A cell holds a numeric value. -/
def isNumF : Option Cell → Bool
  | some (Cell.num _) => true
  | _ => false

/-- One raw telemetry record, one row of the input table.  The five
required columns may be missing or non-numeric (to be rejected by
validation); lateral_g and longitudinal_g are optional numeric columns
defaulting to 0 (source line 84: telemetry.get('lateral_g', 0)). -/
structure RawRecord where
  time_s : Option Cell
  speed_kmh : Option Cell
  distance_m : Option Cell
  brake_pressure_bar : Option Cell
  rpm : Option Cell
  lateral_g : Option ℚ
  longitudinal_g : Option ℚ
deriving DecidableEq, Repr

/-- All five required columns of a record are present and numeric. -/
def RawRecord.valid (r : RawRecord) : Bool :=
  isNumF r.time_s && isNumF r.speed_kmh && isNumF r.distance_m &&
    isNumF r.brake_pressure_bar && isNumF r.rpm

/-- One derived record: the original raw row plus exactly the four
derived columns added by source lines 83-90. -/
structure DerivedRecord where
  raw : RawRecord
  speed_ms : ℚ
  total_g : ℝ
  time_minutes : ℚ
  time_relative : ℚ

/-- Derivation of one record, given the sequence-level reference time t0
(the first record's time_s, source line 90).  Arithmetic from source
lines 83-90: speed_ms = speed_kmh / 3.6,
total_g = sqrt(lateral_g^2 + longitudinal_g^2) with absent optional
columns defaulting to 0, time_minutes = time_s / 60,
time_relative = time_s - t0. -/
noncomputable def deriveRecord (t0 : ℚ) (r : RawRecord) : DerivedRecord :=
  { raw := r
    speed_ms := numOf r.speed_kmh / (3.6 : ℚ)
    total_g := Real.sqrt (((r.lateral_g.getD 0 : ℚ) : ℝ) ^ 2 +
                          ((r.longitudinal_g.getD 0 : ℚ) : ℝ) ^ 2)
    time_minutes := numOf r.time_s / 60
    time_relative := numOf r.time_s - t0 }

/-- Modelled from the spec: the error type of the TelemetryDeriver.
The source script has no explicit error handling; the spec's section 7
declares InvalidInputError for an empty input sequence or a required
raw field that is missing or non-numeric. -/
inductive InvalidInputError where
  | emptyInput
  | invalidField
deriving DecidableEq, Repr

/-- Modelled from the spec: the TelemetryDeriver contract
`derive(records) -> records` (spec section 4.1).  The per-record
arithmetic is taken from source lines 83-90 (see deriveRecord); the
validation and InvalidInputError reporting are absent from the source
and follow the spec's words: fail when the input sequence is empty or
when any required raw field is missing or non-numeric, otherwise map
the derivation over the whole sequence in order. -/
noncomputable def derive (input : List RawRecord) :
    Except InvalidInputError (List DerivedRecord) :=
  match input with
  | [] => Except.error InvalidInputError.emptyInput
  | r0 :: rest =>
    if (r0 :: rest).all RawRecord.valid then
      Except.ok ((r0 :: rest).map (deriveRecord (numOf r0.time_s)))
    else
      Except.error InvalidInputError.invalidField

/-- One renamed record, one row of telemetry_renamed (source lines
96-100): speed_kmh becomes velocity_kmh, time_s becomes
timestamp_seconds, distance_m becomes position_meters; every other
column, including the four derived ones, is carried over unchanged. -/
structure RenamedRecord where
  velocity_kmh : Option Cell
  timestamp_seconds : Option Cell
  position_meters : Option Cell
  brake_pressure_bar : Option Cell
  rpm : Option Cell
  lateral_g : Option ℚ
  longitudinal_g : Option ℚ
  speed_ms : ℚ
  total_g : ℝ
  time_minutes : ℚ
  time_relative : ℚ

/-- Renaming of one record (source lines 96-100). -/
def renameRecord (d : DerivedRecord) : RenamedRecord :=
  { velocity_kmh := d.raw.speed_kmh
    timestamp_seconds := d.raw.time_s
    position_meters := d.raw.distance_m
    brake_pressure_bar := d.raw.brake_pressure_bar
    rpm := d.raw.rpm
    lateral_g := d.raw.lateral_g
    longitudinal_g := d.raw.longitudinal_g
    speed_ms := d.speed_ms
    total_g := d.total_g
    time_minutes := d.time_minutes
    time_relative := d.time_relative }

/-- telemetry.rename returns a new table built row by row; the original
table is untouched (pandas rename is non-destructive). -/
def renameTable (t : List DerivedRecord) : List RenamedRecord :=
  t.map renameRecord

/-- Shape of a successful derivation: the input was non-empty, every
record passed validation, and the output is the pointwise derivation
with the first record's time_s as the shared reference. -/
theorem derive_cons_ok {r0 : RawRecord} {rest : List RawRecord}
    {out : List DerivedRecord} (h : derive (r0 :: rest) = Except.ok out) :
    (r0 :: rest).all RawRecord.valid = true ∧
      out = (r0 :: rest).map (deriveRecord (numOf r0.time_s)) := by
  by_cases hv : (r0 :: rest).all RawRecord.valid = true
  · refine ⟨hv, ?_⟩
    rw [derive, if_pos hv] at h
    exact (Except.ok.inj h).symm
  · rw [derive, if_neg hv] at h
    exact absurd h (by simp)

/-- First record of the spec's concrete scenario (section 8). -/
def rec1 : RawRecord :=
  { time_s := some (Cell.num 0), speed_kmh := some (Cell.num 10),
    distance_m := some (Cell.num 0), brake_pressure_bar := some (Cell.num 0),
    rpm := some (Cell.num 1000), lateral_g := none, longitudinal_g := none }

/-- Second record of the spec's concrete scenario (section 8). -/
def rec2 : RawRecord :=
  { time_s := some (Cell.num 1), speed_kmh := some (Cell.num 35),
    distance_m := some (Cell.num 100), brake_pressure_bar := some (Cell.num 10),
    rpm := some (Cell.num 3000), lateral_g := none, longitudinal_g := none }

/-- Input sequence of the spec's concrete scenario. -/
def scenarioInput : List RawRecord := [rec1, rec2]

/-- Output of derivation on the concrete scenario. -/
noncomputable def scenarioOutput : List DerivedRecord :=
  scenarioInput.map (deriveRecord (numOf rec1.time_s))

/-- Derivation succeeds on the concrete scenario. -/
theorem scenario_derives : derive scenarioInput = Except.ok scenarioOutput := by
  rw [scenarioInput, scenarioOutput, derive, if_pos (by decide)]
  rfl

/-- Claim C1: for every non-empty input sequence, the i-th output
record's time_relative equals input[i].time_s minus input[0].time_s
(the first record's time_s, a single sequence-level reference), and in
particular the first output record's time_relative equals 0. -/
theorem derive_time_relative (r0 : RawRecord) (rest : List RawRecord)
    (out : List DerivedRecord) (h : derive (r0 :: rest) = Except.ok out)
    (i : ℕ) (_hi : i < (r0 :: rest).length) :
    (out[i]?).map DerivedRecord.time_relative
      = ((r0 :: rest)[i]?).map (fun r => numOf r.time_s - numOf r0.time_s)
    ∧ (out[0]?).map DerivedRecord.time_relative = some 0 := by
  obtain ⟨hv, rfl⟩ := derive_cons_ok h
  refine ⟨?_, by simp [deriveRecord]⟩
  rw [List.getElem?_map]
  cases hx : (r0 :: rest)[i]? <;> simp [hx, deriveRecord]

/-- Claim C1 witness: the theorem applied to the concrete two-record
scenario at index 1. -/
theorem derive_time_relative_witness :
    derive scenarioInput = Except.ok scenarioOutput
    ∧ 1 < scenarioInput.length
    ∧ ((scenarioOutput[1]?).map DerivedRecord.time_relative
        = (scenarioInput[1]?).map (fun r => numOf r.time_s - numOf rec1.time_s)
      ∧ (scenarioOutput[0]?).map DerivedRecord.time_relative = some 0) :=
  ⟨scenario_derives, by decide,
    derive_time_relative rec1 [rec2] scenarioOutput scenario_derives 1 (by decide)⟩

/-- Claim C2: for every non-empty input sequence and index i, the i-th
output record's speed_ms equals input[i].speed_kmh divided by 3.6. -/
theorem derive_speed_ms (r0 : RawRecord) (rest : List RawRecord)
    (out : List DerivedRecord) (h : derive (r0 :: rest) = Except.ok out)
    (i : ℕ) (_hi : i < (r0 :: rest).length) :
    (out[i]?).map DerivedRecord.speed_ms
      = ((r0 :: rest)[i]?).map (fun r => numOf r.speed_kmh / (3.6 : ℚ)) := by
  obtain ⟨hv, rfl⟩ := derive_cons_ok h
  rw [List.getElem?_map]
  cases hx : (r0 :: rest)[i]? <;> simp [hx, deriveRecord]

/-- Claim C2 witness: the theorem applied to the concrete two-record
scenario at index 0. -/
theorem derive_speed_ms_witness :
    derive scenarioInput = Except.ok scenarioOutput
    ∧ 0 < scenarioInput.length
    ∧ (scenarioOutput[0]?).map DerivedRecord.speed_ms
        = (scenarioInput[0]?).map (fun r => numOf r.speed_kmh / (3.6 : ℚ)) :=
  ⟨scenario_derives, by decide,
    derive_speed_ms rec1 [rec2] scenarioOutput scenario_derives 0 (by decide)⟩

/-- Claim C3: for every non-empty input sequence and index i, the i-th
output record's total_g equals the square root of lateral_g squared
plus longitudinal_g squared (absent optional columns reading as 0), and
its time_minutes equals input[i].time_s divided by 60. -/
theorem derive_total_g_time_minutes (r0 : RawRecord) (rest : List RawRecord)
    (out : List DerivedRecord) (h : derive (r0 :: rest) = Except.ok out)
    (i : ℕ) (_hi : i < (r0 :: rest).length) :
    (out[i]?).map DerivedRecord.total_g
      = ((r0 :: rest)[i]?).map (fun r =>
          Real.sqrt (((r.lateral_g.getD 0 : ℚ) : ℝ) ^ 2 +
                     ((r.longitudinal_g.getD 0 : ℚ) : ℝ) ^ 2))
    ∧ (out[i]?).map DerivedRecord.time_minutes
      = ((r0 :: rest)[i]?).map (fun r => numOf r.time_s / 60) := by
  obtain ⟨hv, rfl⟩ := derive_cons_ok h
  constructor
  · rw [List.getElem?_map]
    cases hx : (r0 :: rest)[i]? <;> simp [hx, deriveRecord]
  · rw [List.getElem?_map]
    cases hx : (r0 :: rest)[i]? <;> simp [hx, deriveRecord]

/-- Claim C3 witness: the theorem applied to the concrete two-record
scenario at index 1. -/
theorem derive_total_g_time_minutes_witness :
    derive scenarioInput = Except.ok scenarioOutput
    ∧ 1 < scenarioInput.length
    ∧ ((scenarioOutput[1]?).map DerivedRecord.total_g
        = (scenarioInput[1]?).map (fun r =>
            Real.sqrt (((r.lateral_g.getD 0 : ℚ) : ℝ) ^ 2 +
                       ((r.longitudinal_g.getD 0 : ℚ) : ℝ) ^ 2))
      ∧ (scenarioOutput[1]?).map DerivedRecord.time_minutes
        = (scenarioInput[1]?).map (fun r => numOf r.time_s / 60)) :=
  ⟨scenario_derives, by decide,
    derive_total_g_time_minutes rec1 [rec2] scenarioOutput scenario_derives 1
      (by decide)⟩

/-- Claim C4: for every input sequence in which lateral_g and
longitudinal_g are absent from every record, successful derivation
gives total_g = 0 on every output record (the absent columns default
to 0). -/
theorem derive_total_g_default (input : List RawRecord)
    (out : List DerivedRecord) (h : derive input = Except.ok out)
    (hall : ∀ r ∈ input, r.lateral_g = none ∧ r.longitudinal_g = none) :
    ∀ d ∈ out, d.total_g = 0 := by
  cases input with
  | nil => rw [derive] at h; exact absurd h (by simp)
  | cons r0 rest =>
    obtain ⟨hv, rfl⟩ := derive_cons_ok h
    intro d hd
    obtain ⟨r, hr, rfl⟩ := List.mem_map.mp hd
    obtain ⟨hl, hg⟩ := hall r hr
    simp [deriveRecord, hl, hg]

/-- Claim C4 witness: the theorem applied to the concrete two-record
scenario, whose records carry no lateral_g or longitudinal_g. -/
theorem derive_total_g_default_witness :
    derive scenarioInput = Except.ok scenarioOutput
    ∧ (∀ r ∈ scenarioInput, r.lateral_g = none ∧ r.longitudinal_g = none)
    ∧ ∀ d ∈ scenarioOutput, d.total_g = 0 :=
  ⟨scenario_derives, by decide,
    derive_total_g_default scenarioInput scenarioOutput scenario_derives
      (by decide)⟩

/-- Claim C5: derivation fails with InvalidInputError exactly when the
input sequence is empty or some record is missing a required raw field
or has a non-numeric value for it; in particular it fails on the empty
sequence. -/
theorem derive_error_iff (input : List RawRecord) :
    ((∃ e, derive input = Except.error e) ↔
      (input = [] ∨ ∃ r ∈ input, RawRecord.valid r = false))
    ∧ derive [] = Except.error InvalidInputError.emptyInput := by
  refine ⟨?_, rfl⟩
  constructor
  · rintro ⟨e, he⟩
    cases input with
    | nil => exact Or.inl rfl
    | cons r0 rest =>
      refine Or.inr ?_
      by_cases hv : (r0 :: rest).all RawRecord.valid = true
      · rw [derive, if_pos hv] at he
        exact absurd he (by simp)
      · rw [List.all_eq_true] at hv
        push_neg at hv
        obtain ⟨r, hr, hrv⟩ := hv
        exact ⟨r, hr, Bool.eq_false_iff.mpr hrv⟩
  · rintro (rfl | ⟨r, hr, hrv⟩)
    · exact ⟨InvalidInputError.emptyInput, rfl⟩
    · cases input with
      | nil => exact absurd hr (List.not_mem_nil r)
      | cons r0 rest =>
        have hv : ¬ (r0 :: rest).all RawRecord.valid = true := by
          rw [List.all_eq_true]
          push_neg
          exact ⟨r, hr, by simp [hrv]⟩
        exact ⟨InvalidInputError.invalidField, by rw [derive, if_neg hv]⟩

/-- Claim C6: a successful derivation has the same length and order as
the input, each output record carrying its input record's raw row. -/
theorem derive_length_order (input : List RawRecord)
    (out : List DerivedRecord) (h : derive input = Except.ok out) :
    out.length = input.length ∧ out.map DerivedRecord.raw = input := by
  cases input with
  | nil => rw [derive] at h; exact absurd h (by simp)
  | cons r0 rest =>
    obtain ⟨hv, rfl⟩ := derive_cons_ok h
    refine ⟨by simp, ?_⟩
    rw [List.map_map]
    have : (DerivedRecord.raw ∘ deriveRecord (numOf r0.time_s)) = id := by
      funext r
      rfl
    rw [this, List.map_id]

/-- Claim C6 witness: the theorem applied to the concrete scenario. -/
theorem derive_length_order_witness :
    derive scenarioInput = Except.ok scenarioOutput
    ∧ scenarioOutput.length = scenarioInput.length
    ∧ scenarioOutput.map DerivedRecord.raw = scenarioInput :=
  ⟨scenario_derives,
    derive_length_order scenarioInput scenarioOutput scenario_derives⟩

/-- Claim C7: derivation is atomic: on any input it either succeeds with
every record fully derived (one output record per input record) or
reports an error, never a partially derived sequence. -/
theorem derive_atomic (input : List RawRecord) :
    (∃ out, derive input = Except.ok out ∧ out.length = input.length)
    ∨ ∃ e, derive input = Except.error e := by
  cases input with
  | nil => exact Or.inr ⟨InvalidInputError.emptyInput, rfl⟩
  | cons r0 rest =>
    by_cases hv : (r0 :: rest).all RawRecord.valid = true
    · exact Or.inl ⟨(r0 :: rest).map (deriveRecord (numOf r0.time_s)),
        by rw [derive, if_pos hv], by simp⟩
    · exact Or.inr ⟨InvalidInputError.invalidField, by rw [derive, if_neg hv]⟩

/-- Claim C8: derivation does not modify the raw data: every raw field
of every output record is identical to the corresponding field of the
corresponding input record. -/
theorem derive_preserves_raw (input : List RawRecord)
    (out : List DerivedRecord) (h : derive input = Except.ok out) (i : ℕ) :
    (out[i]?).map (fun d => d.raw.time_s) = (input[i]?).map RawRecord.time_s
    ∧ (out[i]?).map (fun d => d.raw.speed_kmh)
        = (input[i]?).map RawRecord.speed_kmh
    ∧ (out[i]?).map (fun d => d.raw.distance_m)
        = (input[i]?).map RawRecord.distance_m
    ∧ (out[i]?).map (fun d => d.raw.brake_pressure_bar)
        = (input[i]?).map RawRecord.brake_pressure_bar
    ∧ (out[i]?).map (fun d => d.raw.rpm) = (input[i]?).map RawRecord.rpm
    ∧ (out[i]?).map (fun d => d.raw.lateral_g)
        = (input[i]?).map RawRecord.lateral_g
    ∧ (out[i]?).map (fun d => d.raw.longitudinal_g)
        = (input[i]?).map RawRecord.longitudinal_g := by
  cases input with
  | nil => rw [derive] at h; exact absurd h (by simp)
  | cons r0 rest =>
    obtain ⟨hv, rfl⟩ := derive_cons_ok h
    rw [List.getElem?_map]
    cases hx : (r0 :: rest)[i]? <;> simp [hx, deriveRecord]

/-- Claim C8 witness: the theorem applied to the concrete scenario at
index 0. -/
theorem derive_preserves_raw_witness :
    derive scenarioInput = Except.ok scenarioOutput
    ∧ ((scenarioOutput[0]?).map (fun d => d.raw.time_s)
        = (scenarioInput[0]?).map RawRecord.time_s
      ∧ (scenarioOutput[0]?).map (fun d => d.raw.speed_kmh)
        = (scenarioInput[0]?).map RawRecord.speed_kmh
      ∧ (scenarioOutput[0]?).map (fun d => d.raw.distance_m)
        = (scenarioInput[0]?).map RawRecord.distance_m
      ∧ (scenarioOutput[0]?).map (fun d => d.raw.brake_pressure_bar)
        = (scenarioInput[0]?).map RawRecord.brake_pressure_bar
      ∧ (scenarioOutput[0]?).map (fun d => d.raw.rpm)
        = (scenarioInput[0]?).map RawRecord.rpm
      ∧ (scenarioOutput[0]?).map (fun d => d.raw.lateral_g)
        = (scenarioInput[0]?).map RawRecord.lateral_g
      ∧ (scenarioOutput[0]?).map (fun d => d.raw.longitudinal_g)
        = (scenarioInput[0]?).map RawRecord.longitudinal_g) :=
  ⟨scenario_derives,
    derive_preserves_raw scenarioInput scenarioOutput scenario_derives 0⟩

/-- Claim C9 counterexample: in the concrete two-record scenario the
first record's speed_kmh is 10, so its derived speed_ms is
10 / 3.6 = 25/9 = 2.777..., which is not approximately 9.722 as the
claim states for record 1. -/
theorem scenario_record1_speed_not_9722 :
    derive scenarioInput = Except.ok scenarioOutput
    ∧ (scenarioOutput[0]?).map DerivedRecord.speed_ms = some (25 / 9)
    ∧ ¬ |(25 / 9 : ℚ) - 9.722| ≤ 1 / 100 := by
  refine ⟨scenario_derives, ?_, by norm_num [abs_le]⟩
  simp [scenarioOutput, scenarioInput, rec1, deriveRecord, numOf]
  norm_num

/-- Claim C9 (amended): the concrete two-record scenario yields record 1
with speed_ms = 25/9 (approximately 2.778, namely 10/3.6),
time_relative = 0 and total_g = 0, and record 2 with speed_ms = 175/18
(approximately 9.722, namely 35/3.6) and time_relative = 1. -/
theorem derive_scenario :
    ∃ out, derive scenarioInput = Except.ok out
      ∧ out.length = 2
      ∧ (out[0]?).map DerivedRecord.speed_ms = some (25 / 9)
      ∧ |(25 / 9 : ℚ) - 2.778| ≤ 1 / 100
      ∧ (out[0]?).map DerivedRecord.time_relative = some 0
      ∧ (out[0]?).map DerivedRecord.total_g = some 0
      ∧ (out[1]?).map DerivedRecord.speed_ms = some (175 / 18)
      ∧ |(175 / 18 : ℚ) - 9.722| ≤ 1 / 100
      ∧ (out[1]?).map DerivedRecord.time_relative = some 1 := by
  refine ⟨scenarioOutput, scenario_derives, by simp [scenarioOutput, scenarioInput],
    ?_, by norm_num [abs_le], ?_, ?_, ?_, by norm_num [abs_le], ?_⟩
  · simp [scenarioOutput, scenarioInput, rec1, deriveRecord, numOf]
    norm_num
  · simp [scenarioOutput, scenarioInput, rec1, deriveRecord, numOf]
  · simp [scenarioOutput, scenarioInput, rec1, deriveRecord]
  · simp [scenarioOutput, scenarioInput, rec1, rec2, deriveRecord, numOf]
    norm_num
  · simp [scenarioOutput, scenarioInput, rec1, rec2, deriveRecord, numOf]

/-- Claim C10: renaming is non-destructive: the renamed table has the
same number of rows and carries, row by row, the same data under the
new column names velocity_kmh, timestamp_seconds and position_meters,
with every other column unchanged; the source table itself is a value
the rename never modifies. -/
theorem renameTable_nondestructive (t : List DerivedRecord) (i : ℕ) :
    (renameTable t).length = t.length
    ∧ ((renameTable t)[i]?).map RenamedRecord.velocity_kmh
        = (t[i]?).map (fun d => d.raw.speed_kmh)
    ∧ ((renameTable t)[i]?).map RenamedRecord.timestamp_seconds
        = (t[i]?).map (fun d => d.raw.time_s)
    ∧ ((renameTable t)[i]?).map RenamedRecord.position_meters
        = (t[i]?).map (fun d => d.raw.distance_m)
    ∧ ((renameTable t)[i]?).map RenamedRecord.brake_pressure_bar
        = (t[i]?).map (fun d => d.raw.brake_pressure_bar)
    ∧ ((renameTable t)[i]?).map RenamedRecord.rpm
        = (t[i]?).map (fun d => d.raw.rpm)
    ∧ ((renameTable t)[i]?).map RenamedRecord.lateral_g
        = (t[i]?).map (fun d => d.raw.lateral_g)
    ∧ ((renameTable t)[i]?).map RenamedRecord.longitudinal_g
        = (t[i]?).map (fun d => d.raw.longitudinal_g)
    ∧ ((renameTable t)[i]?).map RenamedRecord.speed_ms
        = (t[i]?).map DerivedRecord.speed_ms
    ∧ ((renameTable t)[i]?).map RenamedRecord.total_g
        = (t[i]?).map DerivedRecord.total_g
    ∧ ((renameTable t)[i]?).map RenamedRecord.time_minutes
        = (t[i]?).map DerivedRecord.time_minutes
    ∧ ((renameTable t)[i]?).map RenamedRecord.time_relative
        = (t[i]?).map DerivedRecord.time_relative := by
  simp only [renameTable, List.getElem?_map, List.length_map]
  cases hx : t[i]? <;> simp [hx, renameRecord]
